import Mathlib

/-!
Shallow embedding of the core of `src/app.py` (a post-surgery recovery
tracker): session store, signal extractor, triage classifier, reminder
scheduler and report aggregator.  Text is modelled as `List Char`
(Python `str`), clock instants as `Nat` seconds since the Unix epoch
(sub-second precision of `datetime.utcnow()` is below the granularity any
statement here depends on), and the global dictionaries as association
lists.  Python regular expressions are translated into explicit scanning
functions; each translation follows the backtracking behaviour of the
original pattern, argued case by case in the comments.
-/

set_option maxHeartbeats 1000000

namespace CareNest

/-- ASCII whitespace, the characters Python's `\s` matches in ASCII text. -/
def isWs (c : Char) : Bool :=
  c = ' ' || c = '\t' || c = '\n' || c = '\r' || c = '\x0b' || c = '\x0c'

/-- Word characters for Python's `\b` boundaries (ASCII fragment of `\w`). -/
def isWordChar (c : Char) : Bool :=
  c.isAlphanum || c = '_'

/-- Python `str.lower()` on ASCII text, applied character-wise. -/
def lower (s : List Char) : List Char := s.map Char.toLower

/-- The apostrophe character (U+0027), used inside several source strings. -/
def apos : Char := Char.ofNat 39

/-- `leadsWith p l` is true when the pattern `p` is a prefix of `l`. -/
def leadsWith : List Char → List Char → Bool
  | [], _ => true
  | _ :: _, [] => false
  | c :: p, d :: l => c = d && leadsWith p l

/-- `occursIn p t` is true when `p` occurs as a contiguous substring of `t`;
this is Python's `p in t` on strings. -/
def occursIn (p : List Char) : List Char → Bool
  | [] => p.isEmpty
  | l@(_ :: rest) => leadsWith p l || occursIn p rest

/-- Value of a list of decimal digit characters, Python `int(...)`. -/
def digitsToNat (ds : List Char) : Nat :=
  ds.foldl (fun a c => a * 10 + (c.toNat - 48)) 0

/-- Match one keyword at the head of `l` and require a `\b` boundary after
it: either end of text or a non-word character. -/
def matchWordKw : List Char → List Char → Bool
  | [], [] => true
  | c :: _, [] => !isWordChar c
  | [], _ :: _ => false
  | c :: l, k :: ks => c = k && matchWordKw l ks

/-- Scan `t` for a word-bounded occurrence of any keyword in `kws`;
the Bool argument records whether the previous character was a word
character (so that the leading `\b` holds exactly when it is `false`). -/
def scanWordKw (kws : List (List Char)) : Bool → List Char → Bool
  | _, [] => false
  | prevW, l@(c :: rest) =>
    (!prevW && kws.any (fun kw => matchWordKw l kw)) || scanWordKw kws (isWordChar c) rest

/-- Python `re.search(r'\b(kw1|kw2|...)\b', t)` viewed as a Boolean:
some alternative occurs in `t` with word boundaries on both sides. -/
def hasWordKw (kws : List (List Char)) (t : List Char) : Bool :=
  scanWordKw kws false t

/-!
## Pain pattern

`re.search(r'pain\s*(?:is|=|:)?\s*(\d{1,2})', t)`.  The scan tries each
start position left to right.  At a position starting with `pain`, the
greedy `\s*` never needs to backtrack (the following alternatives and the
digit all start with non-whitespace characters), and if the literal `is`,
`=` or `:` is present but the rest fails, the empty alternative also fails
(the next character is then `i`, `=` or `:`, neither whitespace nor a
digit), so committing to the first matching alternative is faithful.
`\d{1,2}` greedily captures two digits when available, else one.
-/

/-- Capture `\d{1,2}` at the head of `l`: two digits when available. -/
def painDigits : List Char → Option Nat
  | [] => none
  | c :: rest =>
    if c.isDigit then
      match rest with
      | d :: _ => if d.isDigit then some ((c.toNat - 48) * 10 + (d.toNat - 48))
                  else some (c.toNat - 48)
      | [] => some (c.toNat - 48)
    else none

/-- Match `\s*(?:is|=|:)?\s*(\d{1,2})` at the head of `l`. -/
def painAfter (l : List Char) : Option Nat :=
  let l1 := l.dropWhile isWs
  let l2 := match l1 with
    | 'i' :: 's' :: r => r
    | '=' :: r => r
    | ':' :: r => r
    | _ => l1
  painDigits (l2.dropWhile isWs)

/-- `re.search` scan for the pain pattern: first position whose full
pattern match succeeds wins. -/
def findPain : List Char → Option Nat
  | [] => none
  | c :: rest =>
    match (if leadsWith ['p', 'a', 'i', 'n'] (c :: rest) then painAfter ((c :: rest).drop 4) else none) with
    | some n => some n
    | none => findPain rest

/-!
## Steps pattern

`re.search(r'(\d{2,6})\s*steps', t)`.  At each position the greedy
`\d{2,6}` tries the longest digit run first (capped at six) and backtracks
down to two; a shorter-than-run attempt always fails because the next
character is a digit, which can match neither `\s` nor the literal `s`, so
trying lengths 6,5,4,3,2 with an exact all-digits check is faithful.
-/

/-- Try to match `(\d{k})\s*steps` at the head of `l`, returning the digits. -/
def stepsAtLen (l : List Char) (k : Nat) : Option (List Char) :=
  let ds := l.take k
  if ds.length = k then
    if ds.all Char.isDigit then
      if leadsWith ['s', 't', 'e', 'p', 's'] ((l.drop k).dropWhile isWs) then some ds else none
    else none
  else none

/-- Greedy `\d{2,6}` followed by `\s*steps` at the head of `l`. -/
def stepsAt (l : List Char) : Option (List Char) :=
  (stepsAtLen l 6).orElse fun _ =>
  (stepsAtLen l 5).orElse fun _ =>
  (stepsAtLen l 4).orElse fun _ =>
  (stepsAtLen l 3).orElse fun _ =>
  stepsAtLen l 2

/-- `re.search` scan for the steps pattern. -/
def findSteps : List Char → Option (List Char)
  | [] => none
  | c :: rest =>
    match stepsAt (c :: rest) with
    | some s => some s
    | none => findSteps rest

/-!
## Triage classifier (`triage_simple`)
-/

/-- High-severity keyword list, in source order. -/
def highKws : List (List Char) :=
  ["chest pain".data, "severe bleeding".data, "difficulty breathing".data,
   "unconscious".data, "passing out".data]

/-- Medium-severity keyword list, in source order. -/
def mediumKws : List (List Char) :=
  ["fever".data, "dizzy".data, "dizziness".data, "severe pain".data,
   "swelling".data, "pus".data, "infection".data]

/-- First keyword of `kws` (in list order) occurring in `t`, Python's
`for kw in kws: if kw in t: ...`. -/
def findKw (t : List Char) : List (List Char) → Option (List Char)
  | [] => none
  | kw :: rest => if occursIn kw t then some kw else findKw t rest

/-- Reason string for the numeric pain escalation rule. -/
def painReason (n : Nat) : List Char :=
  "High pain reported (".data ++ (Nat.repr n).data ++ "/10)".data

/-- `triage_simple(text)`: high keywords first, then medium keywords, then
the numeric pain rule (threshold 8); `(None, None)` becomes `none`. -/
def triage_simple (text : List Char) : Option (List Char × List Char) :=
  match findKw (lower text) highKws with
  | some kw => some ("high".data, "Immediate attention required: ".data ++ kw)
  | none =>
    match findKw (lower text) mediumKws with
    | some kw => some ("medium".data, "Possible complication: ".data ++ kw)
    | none =>
      match findPain (lower text) with
      | some n => if 8 ≤ n then some ("medium".data, painReason n) else none
      | none => none

/-!
## Signal extractor (`detect_and_log_basic`)
-/

/-- The fixed log categories written by the extractor and the scheduler.
The `alerts` and `reminders` keys of `patient_logs` are modelled as
separate fields of `Logs` because their entries have different shapes. -/
inductive Category where
  | pain | medication | mobility | mood | symptoms | wound
deriving DecidableEq, Repr

/-- Medication keywords of `\b(took|taken|took my|took the|medicine|medication|tablet|pill)\b`. -/
def medicationKws : List (List Char) :=
  ["took".data, "taken".data, "took my".data, "took the".data,
   "medicine".data, "medication".data, "tablet".data, "pill".data]

/-- Mood keywords of `\b(mood|feeling|anxious|sad|depressed|happy|ok)\b`. -/
def moodKws : List (List Char) :=
  ["mood".data, "feeling".data, "anxious".data, "sad".data,
   "depressed".data, "happy".data, "ok".data]

/-- Symptom keywords checked by plain substring containment, in source order. -/
def symptomsKws : List (List Char) :=
  ["fever".data, "dizzy".data, "dizziness".data, "nausea".data, "bleeding".data,
   "swelling".data, "pus".data, "infection".data, "shortness of breath".data,
   "chest pain".data]

/-- The wound rule's condition: `"wound" in t or "photo" in t or "upload" in t`. -/
def woundCond (t : List Char) : Bool :=
  occursIn "wound".data t || occursIn "photo".data t || occursIn "upload".data t

/-- The `(category, value)` pairs logged by `detect_and_log_basic(text)`, in
the order the source appends them.  The symptom loop's `break` makes at most
one symptoms entry, so only the Boolean "some keyword occurs" matters. -/
def extractEntries (text : List Char) : List (Category × List Char) :=
  let t := lower text
  (match findPain t with
   | some n => [(Category.pain, (Nat.repr n).data ++ "/10".data)]
   | none => [])
  ++ (match findSteps t with
      | some s => [(Category.mobility, s ++ " steps".data)]
      | none => [])
  ++ (if hasWordKw medicationKws t then [(Category.medication, text)] else [])
  ++ (if hasWordKw moodKws t then [(Category.mood, text)] else [])
  ++ (if symptomsKws.any (fun kw => occursIn kw t) then [(Category.symptoms, text)] else [])
  ++ (if woundCond t then [(Category.wound, text)] else [])

/-!
## Calendar and formatting helpers

`datetime` output is modelled from `Nat` seconds since 1970-01-01T00:00:00
UTC.  `civilFromDays` is the standard days-to-civil-date conversion.  The
model equates the server's local clock with UTC.
-/

/-- Convert days since 1970-01-01 to a civil `(year, month, day)`. -/
def civilFromDays (z0 : Nat) : Nat × Nat × Nat :=
  let z := z0 + 719468
  let era := z / 146097
  let doe := z % 146097
  let yoe := (doe - doe / 1460 + doe / 36524 - doe / 146096) / 365
  let y := yoe + era * 400
  let doy := doe - (365 * yoe + yoe / 4 - yoe / 100)
  let mp := (5 * doy + 2) / 153
  let d := doy - (153 * mp + 2) / 5 + 1
  let m := if mp < 10 then mp + 3 else mp - 9
  (if m ≤ 2 then y + 1 else y, m, d)

/-- Zero-pad a number to two digits. -/
def pad2 (n : Nat) : List Char :=
  if n < 10 then '0' :: (Nat.repr n).data else (Nat.repr n).data

/-- Zero-pad a number to four digits. -/
def pad4 (n : Nat) : List Char :=
  if n < 10 then '0' :: '0' :: '0' :: (Nat.repr n).data
  else if n < 100 then '0' :: '0' :: (Nat.repr n).data
  else if n < 1000 then '0' :: (Nat.repr n).data
  else (Nat.repr n).data

/-- `datetime.isoformat()` for a whole-second instant (microsecond 0). -/
def natToIso (sec : Nat) : List Char :=
  let (y, m, d) := civilFromDays (sec / 86400)
  pad4 y ++ "-".data ++ pad2 m ++ "-".data ++ pad2 d ++ "T".data ++
    pad2 (sec % 86400 / 3600) ++ ":".data ++ pad2 (sec % 3600 / 60) ++
    ":".data ++ pad2 (sec % 60)

/-- `strftime('%Y-%m-%d %H:%M')`. -/
def fmtYMDHM (sec : Nat) : List Char :=
  let (y, m, d) := civilFromDays (sec / 86400)
  pad4 y ++ "-".data ++ pad2 m ++ "-".data ++ pad2 d ++ " ".data ++
    pad2 (sec % 86400 / 3600) ++ ":".data ++ pad2 (sec % 3600 / 60)

/-- `strftime('%I:%M %p')`: zero-padded 12-hour clock with AM/PM. -/
def fmt12 (sec : Nat) : List Char :=
  let h := sec % 86400 / 3600
  let h12 := if h % 12 = 0 then 12 else h % 12
  pad2 h12 ++ ":".data ++ pad2 (sec % 3600 / 60) ++
    (if h < 12 then " AM".data else " PM".data)

/-- `strftime('%A')`: weekday name; day 0 (1970-01-01) was a Thursday. -/
def weekdayName (day : Nat) : List Char :=
  (["Monday", "Tuesday", "Wednesday", "Thursday", "Friday", "Saturday",
    "Sunday"].getD ((day + 3) % 7) "").data

/-- `strftime('%B')`: full month name for month numbers 1–12. -/
def monthName (m : Nat) : List Char :=
  (["January", "February", "March", "April", "May", "June", "July",
    "August", "September", "October", "November", "December"].getD (m - 1) "").data

/-- `strftime('%A, %B %d, %Y')`. -/
def fmtDateLong (sec : Nat) : List Char :=
  let (y, m, d) := civilFromDays (sec / 86400)
  weekdayName (sec / 86400) ++ ", ".data ++ monthName m ++ " ".data ++
    pad2 d ++ ", ".data ++ pad4 y

/-- The time-query response built from `get_current_time_info()`; the model
uses a single UTC clock for both the local and the UTC reading. -/
def timeResponse (now : Nat) : List Char :=
  "Current time information:\n\n• Local time: ".data ++ fmt12 now ++
    "\n• Date: ".data ++ fmtDateLong now ++
    "\n• UTC time: ".data ++ fmt12 now ++ " UTC".data

/-!
## Data model: sessions, alerts, reminders
-/

/-- Speaker role of a history part (`"role": "user" | "model"`). -/
inductive Role where
  | user | model
deriving DecidableEq, Repr

/-- An alert `{time, severity, reason}` stored in `alerts_store`. -/
structure Alert where
  time : Nat
  severity : List Char
  reason : List Char
deriving DecidableEq, Repr

/-- An entry of a session's `patient_logs[...]["reminders"]` list:
`{"id", "when", "text", "sent"}` with `when` an ISO string. -/
structure RemEntry where
  rid : Nat
  whenIso : List Char
  text : List Char
  sent : Bool
deriving DecidableEq, Repr

/-- A record of the global `reminders_store`:
`{"session_id", "when", "text", "sent"}`. -/
structure RemRecord where
  session_id : Nat
  whenIso : List Char
  text : List Char
  sent : Bool
deriving DecidableEq, Repr

/-- The per-session `patient_logs[sid]` dictionary.  The six extractor
categories and the unused `alerts` key hold `{time, value}` entries; the
`reminders` key holds `RemEntry` records. -/
structure Logs where
  pain : List (Nat × List Char)
  medication : List (Nat × List Char)
  mobility : List (Nat × List Char)
  mood : List (Nat × List Char)
  symptoms : List (Nat × List Char)
  wound : List (Nat × List Char)
  alertsLog : List (Nat × List Char)
  reminders : List RemEntry
deriving DecidableEq, Repr

/-- The empty `patient_logs[sid]` dictionary created by `get_session_id`. -/
def emptyLogs : Logs :=
  { pain := [], medication := [], mobility := [], mood := [], symptoms := [],
    wound := [], alertsLog := [], reminders := [] }

/-- One session's state: its `conversation_histories[sid]` list, its
`patient_logs[sid]` dictionary and its `alerts_store[sid]` list. -/
structure SessionState where
  history : List (Role × List Char)
  logs : Logs
  alerts : List Alert
deriving DecidableEq, Repr

/-- The freshly created empty session. -/
def emptySession : SessionState :=
  { history := [], logs := emptyLogs, alerts := [] }

/-- `_update_history(sid, user, bot)`: append a user part and a model part. -/
def update_history (h : List (Role × List Char)) (u b : List Char) :
    List (Role × List Char) :=
  h ++ [(Role.user, u), (Role.model, b)]

/-- `log_patient_data(sid, category, value)` for the six extractor
categories (the session is assumed to exist, as ensured by `get_session_id`
at the start of every request). -/
def logPatient (S : SessionState) (c : Category) (v : List Char) (now : Nat) :
    SessionState :=
  match c with
  | Category.pain => { S with logs := { S.logs with pain := S.logs.pain ++ [(now, v)] } }
  | Category.medication => { S with logs := { S.logs with medication := S.logs.medication ++ [(now, v)] } }
  | Category.mobility => { S with logs := { S.logs with mobility := S.logs.mobility ++ [(now, v)] } }
  | Category.mood => { S with logs := { S.logs with mood := S.logs.mood ++ [(now, v)] } }
  | Category.symptoms => { S with logs := { S.logs with symptoms := S.logs.symptoms ++ [(now, v)] } }
  | Category.wound => { S with logs := { S.logs with wound := S.logs.wound ++ [(now, v)] } }

/-- `detect_and_log_basic(sid, text)`: log every extracted entry with the
current timestamp. -/
def detect_and_log_basic (S : SessionState) (text : List Char) (now : Nat) :
    SessionState :=
  (extractEntries text).foldl (fun s e => logPatient s e.1 e.2 now) S

/-!
## Reminder time parsing

Chat stage 4 applies `re.search(r'(\d{1,2})(?::(\d{2}))?\s*(am|pm)?',
when_part, re.IGNORECASE)`.  Only the leading digit group is mandatory, so
the search matches at the first digit of `when_part`; every later piece is
optional and never forces backtracking (after the greedy digits the
optional `:MM` needs a literal colon, and after the greedy `\s*` the
`am`/`pm` literal cannot match whitespace).
-/

/-- The (am|pm)? capture. -/
inductive AmPm where
  | noap | am | pm
deriving DecidableEq, Repr

/-- Read an optional case-insensitive `am`/`pm` literal at the head. -/
def readAmPm (l : List Char) : AmPm :=
  match l with
  | c1 :: c2 :: _ =>
    if c1.toLower = 'a' ∧ c2.toLower = 'm' then AmPm.am
    else if c1.toLower = 'p' ∧ c2.toLower = 'm' then AmPm.pm
    else AmPm.noap
  | _ => AmPm.noap

/-- Match `(\d{1,2})(?::(\d{2}))?\s*(am|pm)?` at the head of `l`. -/
def parseTimeAt (l : List Char) : Option (Nat × Nat × AmPm) :=
  match l with
  | [] => none
  | c :: rest =>
    if c.isDigit then
      let d0 := c.toNat - 48
      let hr := match rest with
        | d :: r => if d.isDigit then (d0 * 10 + (d.toNat - 48), r) else (d0, rest)
        | [] => (d0, ([] : List Char))
      let mr := match hr.2 with
        | ':' :: d1 :: d2 :: r =>
          if d1.isDigit ∧ d2.isDigit then ((d1.toNat - 48) * 10 + (d2.toNat - 48), r)
          else (0, hr.2)
        | _ => (0, hr.2)
      some (hr.1, mr.1, readAmPm (mr.2.dropWhile isWs))
    else none

/-- `re.search` scan for the time token: the pattern requires a digit, so
this is a match at the first digit of the text. -/
def findTime : List Char → Option (Nat × Nat × AmPm)
  | [] => none
  | c :: rest =>
    match parseTimeAt (c :: rest) with
    | some x => some x
    | none => findTime rest

/-- The am/pm hour adjustment of chat stage 4. -/
def adjustHour (h : Nat) : AmPm → Nat
  | AmPm.pm => if h < 12 then h + 12 else h
  | AmPm.am => if h = 12 then 0 else h
  | AmPm.noap => h

/-- Chat stage 4's absolute-instant computation: with a time token,
`now.replace(hour=hour, minute=minute, second=0, microsecond=0)` rolled
forward one day when not strictly after `now`; without one, `now` plus one
minute.  `none` models the `ValueError` that `datetime.replace` raises for
an out-of-range hour or minute (caught by the route's `except`). -/
def parse_when (whenExpr : List Char) (now : Nat) : Option Nat :=
  match findTime whenExpr with
  | some (h0, mi, ap) =>
    let hour := adjustHour h0 ap
    if hour < 24 ∧ mi < 60 then
      let w := now / 86400 * 86400 + hour * 3600 + mi * 60
      some (if w ≤ now then w + 86400 else w)
    else none
  | none => some (now + 60)

/-!
## Reminder intent parsing

`re.search(r'remind me (?:at|on|in)?\s*(.*) to (.+)', text, re.IGNORECASE)`.
The scan tries each start of a case-insensitive `remind me ` literal.  The
optional `at|on|in` can be committed to when present: dropping it back only
adds the two letters to the front of the region searched for `' to '`,
which cannot begin with either letter.  `\s*(.*) to (.+)` is matched by
trying ever shorter whitespace prefixes (greedy first); at each stop the
dot groups reach to the next newline and take the last `' to '` that
leaves a non-empty remainder.
-/

/-- Split a newline-free region at the last `' to '` with something after
it: the regex `(.*) to (.+)` with greedy `(.*)`. -/
def splitLastTo : List Char → Option (List Char × List Char)
  | [] => none
  | c :: rest =>
    match splitLastTo rest with
    | some (a, b) => some (c :: a, b)
    | none =>
      if leadsWith [' ', 't', 'o', ' '] (c :: rest) ∧ (c :: rest).drop 4 ≠ [] then
        some ([], (c :: rest).drop 4)
      else none

/-- The `(.*) to (.+)` part at one stop of `\s*`: `.` does not cross a
newline, so the region is the current line. -/
def matchToCore (l : List Char) : Option (List Char × List Char) :=
  splitLastTo (l.takeWhile (fun c => c ≠ '\n'))

/-- `\s*(.*) to (.+)`: greedily consume whitespace, falling back to
shorter whitespace prefixes on failure. -/
def matchToTail : List Char → Option (List Char × List Char)
  | [] => matchToCore []
  | c :: rest =>
    if isWs c then (matchToTail rest).orElse (fun _ => matchToCore (c :: rest))
    else matchToCore (c :: rest)

/-- Consume a lowercase pattern case-insensitively at the head, returning
the remainder. -/
def matchCI : List Char → List Char → Option (List Char)
  | [], l => some l
  | _ :: _, [] => none
  | p :: ps, c :: cs => if c.toLower = p then matchCI ps cs else none

/-- The optional `(?:at|on|in)?` after `remind me `. -/
def stripAtOnIn (l : List Char) : List Char :=
  match l with
  | c1 :: c2 :: r =>
    if ([c1.toLower, c2.toLower] = ['a', 't'] ∨ [c1.toLower, c2.toLower] = ['o', 'n'] ∨
        [c1.toLower, c2.toLower] = ['i', 'n']) then r
    else c1 :: c2 :: r
  | _ => l

/-- Python `str.strip()`: drop whitespace from both ends. -/
def pyStrip (l : List Char) : List Char :=
  ((l.dropWhile isWs).reverse.dropWhile isWs).reverse

/-- The reminder-intent search: first `remind me ` occurrence whose tail
matches; on success the two captures are `.strip()`ped as in the source. -/
def tryParseReminder : List Char → Option (List Char × List Char)
  | [] => none
  | c :: rest =>
    match (match matchCI "remind me ".data (c :: rest) with
           | some r => matchToTail (stripAtOnIn r)
           | none => none) with
    | some (a, b) => some (pyStrip a, pyStrip b)
    | none => tryParseReminder rest

/-!
## Reminder delivery (`schedule_reminder_job`)
-/

/-- `schedule_reminder_job(reminder_id, session_id, when_iso, text)` acting
on the owning session's state and the global registry (the session is
assumed to exist; for a missing session the route-level `except` logs and
drops).  Note the source sets `sent` only after the unconditional history
and medication writes, and appends a fresh `sent: True` record to the
session's reminders list. -/
def schedule_reminder_job (rid : Nat) (S : SessionState)
    (reg : List (Nat × RemRecord)) (whenIso : List Char) (text : List Char)
    (now : Nat) : SessionState × List (Nat × RemRecord) :=
  let delivered := "🔔 Reminder: ".data ++ text ++ " (scheduled at ".data ++ whenIso ++ ")".data
  let S1 := { S with history := update_history S.history "(system reminder triggered)".data delivered }
  let S2 := logPatient S1 Category.medication ("Reminder triggered: ".data ++ text) now
  match List.lookup rid reg with
  | some _ =>
    let reg2 := reg.map (fun p => if p.1 = rid then (p.1, { p.2 with sent := true }) else p)
    let S3 := { S2 with logs := { S2.logs with
      reminders := S2.logs.reminders ++ [{ rid := rid, whenIso := whenIso, text := text, sent := true }] } }
    (S3, reg2)
  | none => (S2, reg)

/-!
## Report aggregator (`generate_report_text`)
-/

/-- `re.search(r'(\d+)\s*steps', value)` as used by the report's mobility
sum: the unbounded greedy digit run followed by optional whitespace and the
literal `steps` (shorter runs always fail on the following digit). -/
def stepsNumAt (l : List Char) : Option Nat :=
  let ds := l.takeWhile Char.isDigit
  if ds = [] then none
  else if leadsWith ['s', 't', 'e', 'p', 's'] ((l.drop ds.length).dropWhile isWs) then
    some (digitsToNat ds)
  else none

/-- Scan for the report's steps pattern. -/
def findStepsNum : List Char → Option Nat
  | [] => none
  | c :: rest =>
    match stepsNumAt (c :: rest) with
    | some n => some n
    | none => findStepsNum rest

/-- Python `", ".join(...)`. -/
def joinCommaSpace : List (List Char) → List Char
  | [] => []
  | [x] => x
  | x :: y :: rest => x ++ ", ".data ++ joinCommaSpace (y :: rest)

/-- The last `n` elements of a list, Python `l[-n:]`. -/
def lastN {α : Type} (l : List α) (n : Nat) : List α :=
  l.drop (l.length - n)

/-- `generate_report_text(session_id)` over the session's logs and alerts. -/
def generate_report_text (S : SessionState) : List Char :=
  let pains := S.logs.pain
  let line1 :=
    if pains ≠ [] then
      "📌 Pain logs: ".data ++ (Nat.repr pains.length).data ++ " entries — last: ".data ++
        ((pains.map Prod.snd).getLastD [])
    else "📌 Pain logs: no entries yet.".data
  let line2 := "💊 Medication logs: ".data ++ (Nat.repr S.logs.medication.length).data ++ " entries.".data
  let mobility := S.logs.mobility
  let line3 :=
    if mobility ≠ [] then
      let total := mobility.foldl (fun a e => a + ((findStepsNum e.2).getD 0)) 0
      if total > 0 then
        "🚶 Mobility: total steps recorded ".data ++ (Nat.repr total).data ++ ". Last: ".data ++
          ((mobility.map Prod.snd).getLastD [])
      else "🚶 Mobility logs: ".data ++ (Nat.repr mobility.length).data ++ " entries.".data
    else "🚶 Mobility: no logs yet.".data
  let mood := S.logs.mood
  let line4 :=
    if mood ≠ [] then
      let sample := lastN (mood.map Prod.snd) 7
      "🙂 Recent mood samples: ".data ++ joinCommaSpace (lastN sample 3)
    else "🙂 Mood: no entries yet.".data
  let line5 := "⚠️ Symptom reports: ".data ++ (Nat.repr S.logs.symptoms.length).data
  let line6 := "🩺 Wound/photo uploads: ".data ++ (Nat.repr S.logs.wound.length).data
  let line7 :=
    if S.alerts ≠ [] then
      "🚨 Active alerts: ".data ++ (Nat.repr S.alerts.length).data ++ " — last: ".data ++
        ((S.alerts.map Alert.reason).getLastD [])
    else "🔍 No active alerts.".data
  line1 ++ "\n".data ++ line2 ++ "\n".data ++ line3 ++ "\n".data ++ line4 ++ "\n".data ++
    line5 ++ "\n".data ++ line6 ++ "\n".data ++ line7

/-!
## The `/chat` request pipeline

`chat_core` models lines 186–348 of the source for one resolved session:
the extraction pre-log, the triage stage, and on no verdict the time-query,
reminder, wound-photo, report and language-model stages.  The
language-model response text is an external collaborator input and is
passed in as `llmReply`; `freshId` stands for the `secrets.token_hex(8)`
reminder identity.
-/

/-- Keywords of the time-query check
`\b(what time|current time|time now|what's the time)\b` (IGNORECASE). -/
def timeKws : List (List Char) :=
  ["what time".data, "current time".data, "time now".data,
   "what".data ++ [apos] ++ "s the time".data]

/-- Keywords of the wound-photo check
`\b(upload (a )?wound|i have uploaded|i uploaded|wound photo)\b`. -/
def woundKws : List (List Char) :=
  ["upload a wound".data, "upload wound".data, "i have uploaded".data,
   "i uploaded".data, "wound photo".data]

/-- Keywords of the report check
`\b(report|weekly report|progress report|show my progress)\b`. -/
def reportKws : List (List Char) :=
  ["report".data, "weekly report".data, "progress report".data,
   "show my progress".data]

/-- The canned escalation response for a high triage verdict. -/
def highResponse (reason : List Char) : List Char :=
  "⚠️ This sounds serious: ".data ++ reason ++
    ". Please call emergency services or contact your doctor immediately.".data

/-- The canned advisory response for a medium triage verdict. -/
def mediumResponse (reason : List Char) : List Char :=
  "I noticed: ".data ++ reason ++
    ". Please consider contacting your doctor — I will log this and notify them if needed.".data

/-- The wound-photo quick-action response. -/
def woundResponse : List Char :=
  "Thanks — when you upload the wound photo using the ".data ++ [apos] ++
    "Upload Photo".data ++ [apos] ++ " button, I".data ++ [apos] ++
    "ll log it and remind your doctor if anything looks concerning.".data

/-- The generic `except`-branch response of the `/chat` route. -/
def troubleResponse : List Char :=
  "⚠️ Sorry — I had trouble. Please try again.".data

/-- Result of one `/chat` request for a resolved session: the session's new
state, the new reminder registry, the JSON response text, and whether the
external language model was called. -/
structure ChatOut where
  S : SessionState
  reg : List (Nat × RemRecord)
  response : List Char
  modelCalled : Bool
deriving DecidableEq, Repr

/-- Chat stages 3–7 (time query, reminder scheduling, wound photo, report,
language model), reached when triage produced no short-circuit. -/
def chat_stages (sid : Nat) (S : SessionState) (reg : List (Nat × RemRecord))
    (text : List Char) (now : Nat) (freshId : Nat) (llmReply : List Char) :
    ChatOut :=
  let t := lower text
  if hasWordKw timeKws t then
    let bot := timeResponse now
    { S := { S with history := update_history S.history text bot },
      reg := reg, response := bot, modelCalled := false }
  else
    match tryParseReminder text with
    | some (whenPart, textPart) =>
      match parse_when whenPart now with
      | none =>
        { S := S, reg := reg, response := troubleResponse, modelCalled := false }
      | some w =>
        let whenIso := natToIso w
        let reg2 := reg ++ [(freshId, ({ session_id := sid, whenIso := whenIso,
                                         text := textPart, sent := false } : RemRecord))]
        let S2 := { S with logs := { S.logs with reminders := S.logs.reminders ++
          [({ rid := freshId, whenIso := whenIso, text := textPart, sent := false } : RemEntry)] } }
        let bot := "✅ Reminder scheduled at ".data ++ fmtYMDHM w ++ " to: ".data ++ textPart
        { S := { S2 with history := update_history S2.history text bot },
          reg := reg2, response := bot, modelCalled := false }
    | none =>
      if hasWordKw woundKws t then
        let S2 := logPatient S Category.wound text now
        { S := { S2 with history := update_history S2.history text woundResponse },
          reg := reg, response := woundResponse, modelCalled := false }
      else if hasWordKw reportKws t then
        let bot := generate_report_text S
        { S := { S with history := update_history S.history text bot },
          reg := reg, response := bot, modelCalled := false }
      else
        { S := { S with history := update_history S.history text llmReply },
          reg := reg, response := llmReply, modelCalled := true }

/-- The `/chat` body for a non-empty message on a resolved session:
extraction pre-log, then triage (storing an alert and short-circuiting on a
verdict), then stages 3–7. -/
def chat_core (sid : Nat) (S : SessionState) (reg : List (Nat × RemRecord))
    (text : List Char) (now : Nat) (freshId : Nat) (llmReply : List Char) :
    ChatOut :=
  let S1 := detect_and_log_basic S text now
  match triage_simple text with
  | some (sev, reason) =>
    let S2 := { S1 with alerts := S1.alerts ++ [{ time := now, severity := sev, reason := reason }] }
    if sev = "high".data then
      let bot := highResponse reason
      { S := { S2 with history := update_history S2.history text bot },
        reg := reg, response := bot, modelCalled := false }
    else if sev = "medium".data then
      let bot := mediumResponse reason
      { S := { S2 with history := update_history S2.history text bot },
        reg := reg, response := bot, modelCalled := false }
    else
      chat_stages sid S2 reg text now freshId llmReply
  | none => chat_stages sid S1 reg text now freshId llmReply

/-!
## The session store and the route wrapper
-/

/-- The four global dictionaries, keyed by session identity (for the first
three) and by reminder identity (for the last). -/
structure Stores where
  conversation_histories : List (Nat × List (Role × List Char))
  patient_logs : List (Nat × Logs)
  alerts_store : List (Nat × List Alert)
  reminders_store : List (Nat × RemRecord)
deriving DecidableEq, Repr

/-- The store state at process start. -/
def emptyStores : Stores :=
  { conversation_histories := [], patient_logs := [], alerts_store := [],
    reminders_store := [] }

/-- Python dictionary assignment `m[k] = v` on an association list:
overwrite the binding when present, append it otherwise. -/
def dset {α : Type} (m : List (Nat × α)) (k : Nat) (v : α) : List (Nat × α) :=
  if (List.lookup k m).isNone then m ++ [(k, v)]
  else m.map (fun p => if p.1 = k then (k, v) else p)

/-- First `# ensure dict exists` check of `get_session_id`:
`if sid not in patient_logs: patient_logs[sid] = {...}`. -/
def ensurePatientLogs (sid : Nat) (st : Stores) : Stores :=
  if (List.lookup sid st.patient_logs).isNone then
    { st with patient_logs := st.patient_logs ++ [(sid, emptyLogs)] } else st

/-- Second check: `if sid not in conversation_histories: ... = []`. -/
def ensureHistories (sid : Nat) (st : Stores) : Stores :=
  if (List.lookup sid st.conversation_histories).isNone then
    { st with conversation_histories := st.conversation_histories ++ [(sid, [])] } else st

/-- Third check: `if sid not in alerts_store: ... = []`. -/
def ensureAlerts (sid : Nat) (st : Stores) : Stores :=
  if (List.lookup sid st.alerts_store).isNone then
    { st with alerts_store := st.alerts_store ++ [(sid, [])] } else st

/-- The `# ensure dict exists` block of `get_session_id`: the three checks
run in source order. -/
def ensureSession (sid : Nat) (st : Stores) : Stores :=
  ensureAlerts sid (ensureHistories sid (ensurePatientLogs sid st))

/-- `get_session_id()`: `cookie` is the Flask session's stored identity
(`none` when absent) and `fresh` the `secrets.token_hex(8)` value drawn
when a new identity is needed. -/
def get_session_id (cookie : Option Nat) (fresh : Nat) (st : Stores) :
    Nat × Stores :=
  match cookie with
  | some sid => (sid, ensureSession sid st)
  | none =>
    let sid := fresh
    let st1 := { st with
      conversation_histories := dset st.conversation_histories sid [],
      patient_logs := dset st.patient_logs sid emptyLogs,
      alerts_store := dset st.alerts_store sid [] }
    (sid, ensureSession sid st1)

/-- The view of one session's three sub-records inside the stores, with the
defaulting of `conversation_histories.get(sid, [])` and friends. -/
def sessionView (st : Stores) (sid : Nat) : SessionState :=
  { history := (List.lookup sid st.conversation_histories).getD [],
    logs := (List.lookup sid st.patient_logs).getD emptyLogs,
    alerts := (List.lookup sid st.alerts_store).getD [] }

/-- The full `/chat` route: resolve the session (creating records for an
unknown identity), reject an empty or missing message, otherwise run the
pipeline and write the session's records back. -/
def chat_route (cookie : Option Nat) (fresh : Nat) (msg : List Char)
    (now : Nat) (freshId : Nat) (llmReply : List Char) (st : Stores) :
    List Char × Stores :=
  let r := get_session_id cookie fresh st
  let sid := r.1
  let st1 := r.2
  if msg = [] then ("Please write a message.".data, st1)
  else
    let out := chat_core sid (sessionView st1 sid) st1.reminders_store msg now freshId llmReply
    (out.response,
     { conversation_histories := dset st1.conversation_histories sid out.S.history,
       patient_logs := dset st1.patient_logs sid out.S.logs,
       alerts_store := dset st1.alerts_store sid out.S.alerts,
       reminders_store := out.reg })

/-!
## Lemmas about substring search and keyword scanning
-/

theorem leadsWith_iff (p l : List Char) : leadsWith p l = true ↔ ∃ r, l = p ++ r := by
  induction p generalizing l with
  | nil => simp [leadsWith]
  | cons c p ih =>
    cases l with
    | nil => simp [leadsWith]
    | cons d l' =>
      simp only [leadsWith, Bool.and_eq_true, decide_eq_true_eq, ih, List.cons_append]
      constructor
      · rintro ⟨rfl, r, rfl⟩; exact ⟨r, rfl⟩
      · rintro ⟨r, hr⟩
        injection hr with h1 h2
        exact ⟨h1.symm, r, h2⟩

theorem occursIn_iff (p t : List Char) : occursIn p t = true ↔ ∃ s r, t = s ++ p ++ r := by
  induction t with
  | nil =>
    simp only [occursIn, List.isEmpty_iff]
    constructor
    · rintro rfl; exact ⟨[], [], rfl⟩
    · rintro ⟨s, r, h⟩
      rcases List.append_eq_nil.mp (List.append_eq_nil.mp h.symm).1 with ⟨-, h2⟩
      exact h2
  | cons c t' ih =>
    simp only [occursIn, Bool.or_eq_true, leadsWith_iff, ih]
    constructor
    · rintro (⟨r, hr⟩ | ⟨s, r, hr⟩)
      · exact ⟨[], r, by simpa using hr⟩
      · exact ⟨c :: s, r, by simp [hr]⟩
    · rintro ⟨s, r, hr⟩
      cases s with
      | nil => exact Or.inl ⟨r, by simpa using hr⟩
      | cons a s' =>
        injection hr with h1 h2
        exact Or.inr ⟨s', r, h2⟩

theorem occursIn_trans (a b t : List Char) (h1 : occursIn a b = true)
    (h2 : occursIn b t = true) : occursIn a t = true := by
  rcases (occursIn_iff a b).mp h1 with ⟨s1, r1, rfl⟩
  rcases (occursIn_iff _ t).mp h2 with ⟨s2, r2, rfl⟩
  exact (occursIn_iff a _).mpr ⟨s2 ++ s1, r1 ++ r2, by simp⟩

theorem occursIn_lower (p t : List Char) (h : occursIn p t = true) :
    occursIn (lower p) (lower t) = true := by
  rcases (occursIn_iff p t).mp h with ⟨s, r, rfl⟩
  exact (occursIn_iff _ _).mpr ⟨lower s, lower r, by simp [lower]⟩

theorem matchWordKw_leadsWith (l kw : List Char) (h : matchWordKw l kw = true) :
    leadsWith kw l = true := by
  induction kw generalizing l with
  | nil => simp [leadsWith]
  | cons k ks ih =>
    cases l with
    | nil => simp [matchWordKw] at h
    | cons c l' =>
      simp only [matchWordKw, Bool.and_eq_true, decide_eq_true_eq] at h
      simp only [leadsWith, Bool.and_eq_true, decide_eq_true_eq]
      exact ⟨h.1.symm, ih l' h.2⟩

theorem scanWordKw_occursIn (kws : List (List Char)) (b : Bool) (t : List Char)
    (h : scanWordKw kws b t = true) : ∃ kw, kw ∈ kws ∧ occursIn kw t = true := by
  induction t generalizing b with
  | nil => simp [scanWordKw] at h
  | cons c rest ih =>
    simp only [scanWordKw, Bool.or_eq_true, Bool.and_eq_true, List.any_eq_true] at h
    rcases h with ⟨-, kw, hmem, hm⟩ | h
    · refine ⟨kw, hmem, ?_⟩
      simp only [occursIn, Bool.or_eq_true]
      exact Or.inl (matchWordKw_leadsWith _ _ hm)
    · rcases ih _ h with ⟨kw, hmem, hocc⟩
      refine ⟨kw, hmem, ?_⟩
      simp only [occursIn, Bool.or_eq_true]
      exact Or.inr hocc

theorem hasWordKw_occursIn (kws : List (List Char)) (t : List Char)
    (h : hasWordKw kws t = true) : ∃ kw, kw ∈ kws ∧ occursIn kw t = true :=
  scanWordKw_occursIn kws false t h

/-!
## Lemmas about the triage keyword loop
-/

theorem findKw_eq_none (t : List Char) (l : List (List Char))
    (h : ∀ kw ∈ l, occursIn kw t = false) : findKw t l = none := by
  induction l with
  | nil => rfl
  | cons kw rest ih =>
    have hkw : occursIn kw t = false := h kw (by simp)
    simp only [findKw, hkw, Bool.false_eq_true, if_false]
    exact ih (fun k hk => h k (by simp [hk]))

theorem findKw_mem (t : List Char) (l : List (List Char)) (kw : List Char)
    (h : findKw t l = some kw) : kw ∈ l := by
  induction l with
  | nil => simp [findKw] at h
  | cons k rest ih =>
    simp only [findKw] at h
    by_cases hk : occursIn k t = true
    · simp [hk] at h; simp [h]
    · simp [hk] at h; simp [ih h]

theorem findKw_isSome (t : List Char) (l : List (List Char)) (kw : List Char)
    (hmem : kw ∈ l) (hocc : occursIn kw t = true) : ∃ k, findKw t l = some k := by
  induction l with
  | nil => simp at hmem
  | cons k rest ih =>
    by_cases hk : occursIn k t = true
    · exact ⟨k, by simp [findKw, hk]⟩
    · rcases List.mem_cons.mp hmem with rfl | hmem'
      · exact absurd hocc hk
      · rcases ih hmem' with ⟨k', hk'⟩
        exact ⟨k', by simp [findKw, hk, hk']⟩


theorem triage_sev (text sev reason : List Char)
    (h : triage_simple text = some (sev, reason)) :
    sev = "high".data ∨ sev = "medium".data := by
  unfold triage_simple at h
  split at h
  · injection h with h'
    exact Or.inl (congrArg Prod.fst h'.symm)
  · split at h
    · injection h with h'
      exact Or.inr (congrArg Prod.fst h'.symm)
    · split at h
      · split at h
        · injection h with h'
          exact Or.inr (congrArg Prod.fst h'.symm)
        · exact absurd h (by simp)
      · exact absurd h (by simp)

/-- C1: `classify` evaluates its rules in strict priority order: the
high-severity list first in list order (so any text containing
"chest pain" yields the high chest-pain verdict regardless of other
content, high taking precedence over medium), the medium list only when no
high keyword occurs, and the numeric pain rule only when neither list
matched. -/
theorem claim_C1_triage_priority (text : List Char) :
    (occursIn "chest pain".data text = true →
      triage_simple text = some ("high".data, "Immediate attention required: chest pain".data)) ∧
    (∀ kw, kw ∈ highKws → occursIn kw (lower text) = true →
      ∃ kw2, kw2 ∈ highKws ∧
        triage_simple text = some ("high".data, "Immediate attention required: ".data ++ kw2)) ∧
    ((∀ kw ∈ highKws, occursIn kw (lower text) = false) →
      ∀ kw, kw ∈ mediumKws → occursIn kw (lower text) = true →
      ∃ kw2, kw2 ∈ mediumKws ∧
        triage_simple text = some ("medium".data, "Possible complication: ".data ++ kw2)) ∧
    ((∀ kw ∈ highKws, occursIn kw (lower text) = false) →
     (∀ kw ∈ mediumKws, occursIn kw (lower text) = false) →
      (∀ n, findPain (lower text) = some n →
        ((8 ≤ n → triage_simple text = some ("medium".data, painReason n)) ∧
         (n < 8 → triage_simple text = none))) ∧
      (findPain (lower text) = none → triage_simple text = none)) := by
  refine ⟨?_, ?_, ?_, ?_⟩
  · intro h
    have hl0 := occursIn_lower "chest pain".data text h
    have he : lower "chest pain".data = "chest pain".data := by decide
    rw [he] at hl0
    have hf : findKw (lower text) highKws = some "chest pain".data := by
      simp [findKw, highKws, hl0]
    simp [triage_simple, hf]
  · intro kw hmem hocc
    obtain ⟨k, hk⟩ := findKw_isSome (lower text) highKws kw hmem hocc
    exact ⟨k, findKw_mem _ _ _ hk, by simp [triage_simple, hk]⟩
  · intro hnone kw hmem hocc
    have hfn := findKw_eq_none (lower text) highKws hnone
    obtain ⟨k, hk⟩ := findKw_isSome (lower text) mediumKws kw hmem hocc
    exact ⟨k, findKw_mem _ _ _ hk, by simp [triage_simple, hfn, hk]⟩
  · intro h1 h2
    have hfn1 := findKw_eq_none (lower text) highKws h1
    have hfn2 := findKw_eq_none (lower text) mediumKws h2
    refine ⟨fun n hn => ⟨fun h8 => ?_, fun h8 => ?_⟩, fun hn => ?_⟩
    · simp [triage_simple, hfn1, hfn2, hn, h8]
    · simp [triage_simple, hfn1, hfn2, hn, Nat.not_le.mpr h8]
    · simp [triage_simple, hfn1, hfn2, hn]

theorem claim_C1_triage_priority_witness :
    triage_simple "I have chest pain and fever".data =
      some ("high".data, "Immediate attention required: chest pain".data) ∧
    (∃ kw2, kw2 ∈ mediumKws ∧ triage_simple "fever and dizziness".data =
      some ("medium".data, "Possible complication: ".data ++ kw2)) ∧
    triage_simple "pain 9".data = some ("medium".data, painReason 9) := by
  refine ⟨(claim_C1_triage_priority "I have chest pain and fever".data).1 (by decide),
          (claim_C1_triage_priority "fever and dizziness".data).2.2.1 (by decide)
            "fever".data (by decide) (by decide),
          (((claim_C1_triage_priority "pain 9".data).2.2.2 (by decide) (by decide)).1
            9 (by decide)).1 (by decide)⟩



theorem findTime_eq_none (w : List Char) (h : ∀ c ∈ w, c.isDigit = false) :
    findTime w = none := by
  induction w with
  | nil => rfl
  | cons c rest ih =>
    have hc : c.isDigit = false := h c (by simp)
    simp only [findTime, parseTimeAt, hc, Bool.false_eq_true, if_false]
    exact ih (fun x hx => h x (by simp [hx]))

/-- C4: with an hour token in the parsed whenExpr, the scheduled instant is
the current date at that (am/pm-adjusted) hour and minute, rolled forward
one day when not strictly after now — hence always strictly after now; with
no time token (no digit at all), the instant is now plus one minute. -/
theorem claim_C4_reminder_time (whenExpr : List Char) (now h0 mi : Nat) (ap : AmPm) :
    (findTime whenExpr = some (h0, mi, ap) → adjustHour h0 ap < 24 → mi < 60 →
      parse_when whenExpr now =
        some (if now / 86400 * 86400 + adjustHour h0 ap * 3600 + mi * 60 ≤ now
              then now / 86400 * 86400 + adjustHour h0 ap * 3600 + mi * 60 + 86400
              else now / 86400 * 86400 + adjustHour h0 ap * 3600 + mi * 60) ∧
      (∀ r, parse_when whenExpr now = some r → now < r)) ∧
    ((∀ c ∈ whenExpr, c.isDigit = false) → parse_when whenExpr now = some (now + 60)) := by
  constructor
  · intro hf h24 h60
    have heq : parse_when whenExpr now =
        some (if now / 86400 * 86400 + adjustHour h0 ap * 3600 + mi * 60 ≤ now
              then now / 86400 * 86400 + adjustHour h0 ap * 3600 + mi * 60 + 86400
              else now / 86400 * 86400 + adjustHour h0 ap * 3600 + mi * 60) := by
      simp [parse_when, hf, h24, h60]
    refine ⟨heq, fun r hr => ?_⟩
    rw [heq] at hr
    by_cases hw : now / 86400 * 86400 + adjustHour h0 ap * 3600 + mi * 60 ≤ now
    · rw [if_pos hw] at hr
      injection hr with hr
      omega
    · rw [if_neg hw] at hr
      injection hr with hr
      omega
  · intro hnd
    have hft := findTime_eq_none whenExpr hnd
    simp [parse_when, hft]

theorem claim_C4_reminder_time_witness :
    parse_when "5 pm".data 54000 = some 61200 ∧ 54000 < 61200 ∧
    parse_when "5 pm".data 64800 = some 147600 ∧
    parse_when "tomorrow".data 1000 = some 1060 := by
  have h1 := (claim_C4_reminder_time "5 pm".data 54000 5 0 AmPm.pm).1
    (by decide) (by decide) (by decide)
  have h2 := (claim_C4_reminder_time "5 pm".data 64800 5 0 AmPm.pm).1
    (by decide) (by decide) (by decide)
  have h3 := (claim_C4_reminder_time "tomorrow".data 1000 0 0 AmPm.noap).2 (by decide)
  have e1 : parse_when "5 pm".data 54000 = some 61200 := h1.1.trans (by decide)
  exact ⟨e1, h1.2 61200 e1, h2.1.trans (by decide), h3⟩

/-- C5 counterexample: on "I took 450 steps and feeling happy" the extractor
also emits a medication entry (keyword "took"), so the claimed
"exactly two entries (mobility and mood), none in any other category" is
false. -/
theorem claim_C5_counterexample :
    Category.medication ∈
      (extractEntries "I took 450 steps and feeling happy".data).map Prod.fst := by
  decide

/-- C5 (amended): extract("I took 450 steps and feeling happy") yields
exactly three entries — mobility "450 steps", medication with the raw text
(the word "took" matches the medication rule), and mood with the raw
text — and none in any other category. -/
theorem claim_C5_extract_entries :
    extractEntries "I took 450 steps and feeling happy".data =
      [(Category.mobility, "450 steps".data),
       (Category.medication, "I took 450 steps and feeling happy".data),
       (Category.mood, "I took 450 steps and feeling happy".data)] := by
  decide

/-- C9: `generate_report_text` on a freshly created session (directly, and
as created in the stores by `get_session_id` for an unknown identity)
returns the fixed empty-case line for every category and the
"No active alerts." sentinel. -/
theorem claim_C9_empty_report :
    generate_report_text emptySession =
      ("📌 Pain logs: no entries yet.\n💊 Medication logs: 0 entries.\n🚶 Mobility: no logs yet.\n🙂 Mood: no entries yet.\n⚠️ Symptom reports: 0\n🩺 Wound/photo uploads: 0\n🔍 No active alerts.").data ∧
    generate_report_text (sessionView (get_session_id none 3 emptyStores).2 3) =
      ("📌 Pain logs: no entries yet.\n💊 Medication logs: 0 entries.\n🚶 Mobility: no logs yet.\n🙂 Mood: no entries yet.\n⚠️ Symptom reports: 0\n🩺 Wound/photo uploads: 0\n🔍 No active alerts.").data := by
  exact ⟨rfl, rfl⟩



/-! ## Lemmas about logging and extraction state effects -/

theorem logPatient_history (S : SessionState) (c : Category) (v : List Char) (now : Nat) :
    (logPatient S c v now).history = S.history := by cases c <;> rfl

theorem logPatient_alerts (S : SessionState) (c : Category) (v : List Char) (now : Nat) :
    (logPatient S c v now).alerts = S.alerts := by cases c <;> rfl

theorem logPatient_reminders (S : SessionState) (c : Category) (v : List Char) (now : Nat) :
    (logPatient S c v now).logs.reminders = S.logs.reminders := by cases c <;> rfl

theorem foldl_logPatient_history (l : List (Category × List Char)) (S : SessionState) (now : Nat) :
    (l.foldl (fun s e => logPatient s e.1 e.2 now) S).history = S.history := by
  induction l generalizing S with
  | nil => rfl
  | cons e rest ih => rw [List.foldl_cons, ih, logPatient_history]

theorem foldl_logPatient_alerts (l : List (Category × List Char)) (S : SessionState) (now : Nat) :
    (l.foldl (fun s e => logPatient s e.1 e.2 now) S).alerts = S.alerts := by
  induction l generalizing S with
  | nil => rfl
  | cons e rest ih => rw [List.foldl_cons, ih, logPatient_alerts]

theorem foldl_logPatient_reminders (l : List (Category × List Char)) (S : SessionState) (now : Nat) :
    (l.foldl (fun s e => logPatient s e.1 e.2 now) S).logs.reminders = S.logs.reminders := by
  induction l generalizing S with
  | nil => rfl
  | cons e rest ih => rw [List.foldl_cons, ih, logPatient_reminders]

theorem foldl_logPatient_wound (l : List (Category × List Char)) (S : SessionState) (now : Nat) :
    (l.foldl (fun s e => logPatient s e.1 e.2 now) S).logs.wound =
      S.logs.wound ++
        l.filterMap (fun e => if e.1 = Category.wound then some (now, e.2) else none) := by
  induction l generalizing S with
  | nil => simp
  | cons e rest ih =>
    rw [List.foldl_cons, ih]
    rcases e with ⟨c, v⟩
    cases c <;> simp [logPatient]

theorem detect_history (S : SessionState) (text : List Char) (now : Nat) :
    (detect_and_log_basic S text now).history = S.history :=
  foldl_logPatient_history _ _ _

theorem detect_alerts (S : SessionState) (text : List Char) (now : Nat) :
    (detect_and_log_basic S text now).alerts = S.alerts :=
  foldl_logPatient_alerts _ _ _

theorem detect_reminders (S : SessionState) (text : List Char) (now : Nat) :
    (detect_and_log_basic S text now).logs.reminders = S.logs.reminders :=
  foldl_logPatient_reminders _ _ _

theorem extract_wound_filterMap (text : List Char) (now : Nat)
    (h : woundCond (lower text) = true) :
    (extractEntries text).filterMap
      (fun e => if e.1 = Category.wound then some (now, e.2) else none) = [(now, text)] := by
  unfold extractEntries
  cases hfp : findPain (lower text) <;> cases hfs : findSteps (lower text) <;>
    cases h3 : hasWordKw medicationKws (lower text) <;>
    cases h4 : hasWordKw moodKws (lower text) <;>
    cases h5 : symptomsKws.any (fun kw => occursIn kw (lower text)) <;>
    simp [hfp, hfs, h3, h4, h5, h]

theorem detect_wound (S : SessionState) (text : List Char) (now : Nat)
    (h : woundCond (lower text) = true) :
    (detect_and_log_basic S text now).logs.wound = S.logs.wound ++ [(now, text)] := by
  unfold detect_and_log_basic
  rw [foldl_logPatient_wound, extract_wound_filterMap text now h]

/-! ## Lemmas about association-list lookup -/

theorem lookup_append {α : Type} (s : Nat) (m1 m2 : List (Nat × α)) :
    List.lookup s (m1 ++ m2) = (List.lookup s m1).orElse (fun _ => List.lookup s m2) := by
  induction m1 with
  | nil => simp
  | cons p rest ih =>
    rcases p with ⟨a, b⟩
    simp only [List.cons_append, List.lookup]
    cases s == a <;> simp [ih]

theorem lookup_getD_append {α : Type} (s k : Nat) (m : List (Nat × α)) (d : α) :
    (List.lookup s (m ++ [(k, d)])).getD d = (List.lookup s m).getD d := by
  rw [lookup_append]
  cases hl : List.lookup s m
  · simp only [Option.orElse, Option.none_orElse]
    simp [List.lookup]
    cases s == k <;> simp
  · simp

theorem lookup_setSent (rid : Nat) (reg : List (Nat × RemRecord)) (r : RemRecord)
    (h : List.lookup rid reg = some r) :
    List.lookup rid
      (reg.map (fun p => if p.1 = rid then (p.1, { p.2 with sent := true }) else p)) =
      some { r with sent := true } := by
  induction reg with
  | nil => simp at h
  | cons p rest ih =>
    rcases p with ⟨a, b⟩
    simp only [List.lookup] at h
    by_cases ha : rid = a
    · subst ha
      simp only [beq_self_eq_true] at h
      injection h with h
      subst h
      have hcons : List.map (fun p : Nat × RemRecord =>
          if p.1 = rid then (p.1, { p.2 with sent := true }) else p) ((rid, b) :: rest) =
          (rid, { b with sent := true }) :: List.map (fun p : Nat × RemRecord =>
          if p.1 = rid then (p.1, { p.2 with sent := true }) else p) rest := by simp
      rw [hcons]
      simp [List.lookup]
    · have hba : (rid == a) = false := beq_eq_false_iff_ne.mpr ha
      rw [hba] at h
      simp only [List.map_cons]
      rw [if_neg (fun hc => ha hc.symm)]
      simp only [List.lookup, hba]
      exact ih h



/-- C2 (amended): the delivered flag only ever moves to `true` (so it
transitions false→true at most once), but the delivery handler is not
idempotent: every invocation for a registered reminder — including a second
one on an already-delivered reminder — appends another history turn,
another medication log entry and another session reminder-list entry. -/
theorem claim_C2_delivery_not_idempotent (rid : Nat) (S : SessionState)
    (reg : List (Nat × RemRecord)) (whenIso text : List Char) (now : Nat)
    (r : RemRecord) (h : List.lookup rid reg = some r) :
    (schedule_reminder_job rid S reg whenIso text now).1.history =
      S.history ++ [(Role.user, "(system reminder triggered)".data),
        (Role.model, "🔔 Reminder: ".data ++ text ++ " (scheduled at ".data ++ whenIso ++ ")".data)] ∧
    (schedule_reminder_job rid S reg whenIso text now).1.logs.medication =
      S.logs.medication ++ [(now, "Reminder triggered: ".data ++ text)] ∧
    (schedule_reminder_job rid S reg whenIso text now).1.logs.reminders =
      S.logs.reminders ++ [{ rid := rid, whenIso := whenIso, text := text, sent := true }] ∧
    List.lookup rid (schedule_reminder_job rid S reg whenIso text now).2 =
      some { r with sent := true } := by
  unfold schedule_reminder_job
  rw [h]
  exact ⟨rfl, rfl, rfl, lookup_setSent rid reg r h⟩

theorem claim_C2_delivery_not_idempotent_witness :
    (schedule_reminder_job 1 emptySession
        [(1, { session_id := 0, whenIso := "1970-01-01T17:00:00".data,
               text := "take meds".data, sent := true })]
        "1970-01-01T17:00:00".data "take meds".data 9).1.history =
      [(Role.user, "(system reminder triggered)".data),
       (Role.model, "🔔 Reminder: ".data ++ "take meds".data ++ " (scheduled at ".data ++
         "1970-01-01T17:00:00".data ++ ")".data)] ∧
    (schedule_reminder_job 1 emptySession
        [(1, { session_id := 0, whenIso := "1970-01-01T17:00:00".data,
               text := "take meds".data, sent := true })]
        "1970-01-01T17:00:00".data "take meds".data 9).1.logs.medication =
      [(9, "Reminder triggered: ".data ++ "take meds".data)] ∧
    (schedule_reminder_job 1 emptySession
        [(1, { session_id := 0, whenIso := "1970-01-01T17:00:00".data,
               text := "take meds".data, sent := true })]
        "1970-01-01T17:00:00".data "take meds".data 9).1.logs.reminders =
      [{ rid := 1, whenIso := "1970-01-01T17:00:00".data, text := "take meds".data, sent := true }] ∧
    List.lookup 1 (schedule_reminder_job 1 emptySession
        [(1, { session_id := 0, whenIso := "1970-01-01T17:00:00".data,
               text := "take meds".data, sent := true })]
        "1970-01-01T17:00:00".data "take meds".data 9).2 =
      some { session_id := 0, whenIso := "1970-01-01T17:00:00".data,
             text := "take meds".data, sent := true } :=
  claim_C2_delivery_not_idempotent 1 emptySession
    [(1, { session_id := 0, whenIso := "1970-01-01T17:00:00".data,
           text := "take meds".data, sent := true })]
    "1970-01-01T17:00:00".data "take meds".data 9
    { session_id := 0, whenIso := "1970-01-01T17:00:00".data,
      text := "take meds".data, sent := true } (by decide)

/-- C2 counterexample: a reminder whose delivered flag is already `true`
is delivered again by a second handler run, which appends a history turn,
a medication log entry and a reminder-list entry — not a no-op. -/
theorem claim_C2_counterexample :
    ((schedule_reminder_job 1 emptySession
        [(1, { session_id := 0, whenIso := "1970-01-01T17:00:00".data,
               text := "take meds".data, sent := true })]
        "1970-01-01T17:00:00".data "take meds".data 9).1.history.length = 2) ∧
    ((schedule_reminder_job 1 emptySession
        [(1, { session_id := 0, whenIso := "1970-01-01T17:00:00".data,
               text := "take meds".data, sent := true })]
        "1970-01-01T17:00:00".data "take meds".data 9).1.logs.medication.length = 1) ∧
    ((schedule_reminder_job 1 emptySession
        [(1, { session_id := 0, whenIso := "1970-01-01T17:00:00".data,
               text := "take meds".data, sent := true })]
        "1970-01-01T17:00:00".data "take meds".data 9).1.logs.reminders.length = 1) := by
  decide



/-- C7: whenever triage yields a verdict, the chat handler appends exactly
one alert for the message and short-circuits: the reminder registry and the
session's reminder list are untouched, no model call occurs, and the session
changes only by the extraction log entries, the one alert, and the single
history turn carrying the canned escalation or advisory response. -/
theorem claim_C7_triage_short_circuit (sid : Nat) (S : SessionState)
    (reg : List (Nat × RemRecord)) (text : List Char) (now freshId : Nat)
    (llmReply : List Char) (sev reason : List Char)
    (h : triage_simple text = some (sev, reason)) :
    ∃ bot,
      chat_core sid S reg text now freshId llmReply =
        { S := { history := S.history ++ [(Role.user, text), (Role.model, bot)],
                 logs := (detect_and_log_basic S text now).logs,
                 alerts := S.alerts ++ [{ time := now, severity := sev, reason := reason }] },
          reg := reg, response := bot, modelCalled := false } ∧
      ((sev = "high".data ∧ bot = highResponse reason) ∨
       (sev = "medium".data ∧ bot = mediumResponse reason)) ∧
      (detect_and_log_basic S text now).logs.reminders = S.logs.reminders := by
  rcases triage_sev text sev reason h with hs | hs
  · refine ⟨highResponse reason, ?_, Or.inl ⟨hs, rfl⟩, detect_reminders S text now⟩
    simp only [chat_core, h, hs]
    simp [ChatOut.mk.injEq, SessionState.mk.injEq, update_history,
          detect_history, detect_alerts]
  · refine ⟨mediumResponse reason, ?_, Or.inr ⟨hs, rfl⟩, detect_reminders S text now⟩
    simp only [chat_core, h, hs]
    simp [ChatOut.mk.injEq, SessionState.mk.injEq, update_history,
          detect_history, detect_alerts]


theorem claim_C7_triage_short_circuit_witness :
    ∃ bot,
      chat_core 0 emptySession [] "pain is 8, I feel dizzy".data 5 9 "llm".data =
        { S := { history := emptySession.history ++
                   [(Role.user, "pain is 8, I feel dizzy".data), (Role.model, bot)],
                 logs := (detect_and_log_basic emptySession "pain is 8, I feel dizzy".data 5).logs,
                 alerts := emptySession.alerts ++
                   [{ time := 5, severity := "medium".data,
                      reason := "Possible complication: dizzy".data }] },
          reg := [], response := bot, modelCalled := false } ∧
      (("medium".data = "high".data ∧ bot = highResponse "Possible complication: dizzy".data) ∨
       ("medium".data = "medium".data ∧ bot = mediumResponse "Possible complication: dizzy".data)) ∧
      (detect_and_log_basic emptySession "pain is 8, I feel dizzy".data 5).logs.reminders =
        emptySession.logs.reminders :=
  claim_C7_triage_short_circuit 0 emptySession [] "pain is 8, I feel dizzy".data 5 9 "llm".data
    "medium".data "Possible complication: dizzy".data (by decide)



/-- C10: for a message with no triage verdict, no time-query match and no
reminder match that matches the wound-photo quick action, the handler logs
the wound category twice for that one message — once from the extractor's
wound rule and once from the quick-action stage — so the extractor's
at-most-one-entry-per-category bound does not hold end to end. -/
theorem claim_C10_wound_double_log (sid : Nat) (S : SessionState)
    (reg : List (Nat × RemRecord)) (text : List Char) (now freshId : Nat)
    (llmReply : List Char)
    (htri : triage_simple text = none)
    (htime : hasWordKw timeKws (lower text) = false)
    (hrem : tryParseReminder text = none)
    (hwound : hasWordKw woundKws (lower text) = true) :
    (chat_core sid S reg text now freshId llmReply).S.logs.wound =
      S.logs.wound ++ [(now, text), (now, text)] := by
  have hwc : woundCond (lower text) = true := by
    rcases hasWordKw_occursIn _ _ hwound with ⟨kw, hmem, hocc⟩
    unfold woundCond
    simp only [woundKws, List.mem_cons, List.not_mem_nil, or_false] at hmem
    rcases hmem with rfl | rfl | rfl | rfl | rfl
    · simp [occursIn_trans "upload".data _ _ (by decide) hocc]
    · simp [occursIn_trans "upload".data _ _ (by decide) hocc]
    · simp [occursIn_trans "upload".data _ _ (by decide) hocc]
    · simp [occursIn_trans "upload".data _ _ (by decide) hocc]
    · simp [occursIn_trans "wound".data _ _ (by decide) hocc]
  simp only [chat_core, htri, chat_stages, htime, hrem, hwound]
  simp [logPatient, detect_wound S text now hwc]

theorem claim_C10_wound_double_log_witness :
    (chat_core 0 emptySession [] "I uploaded a wound photo".data 100 7 "llm".data).S.logs.wound =
      emptySession.logs.wound ++
        [(100, "I uploaded a wound photo".data), (100, "I uploaded a wound photo".data)] :=
  claim_C10_wound_double_log 0 emptySession [] "I uploaded a wound photo".data 100 7 "llm".data
    (by decide) (by decide) (by decide) (by decide)



theorem chat_core_no_verdict (sid : Nat) (S : SessionState)
    (reg : List (Nat × RemRecord)) (text : List Char) (now freshId : Nat)
    (llmReply : List Char) (htri : triage_simple text = none) :
    chat_core sid S reg text now freshId llmReply =
      chat_stages sid (detect_and_log_basic S text now) reg text now freshId llmReply := by
  unfold chat_core
  rw [htri]

theorem chat_stages_reminder (sid : Nat) (S : SessionState)
    (reg : List (Nat × RemRecord)) (text whenPart textPart llmReply : List Char)
    (now freshId w : Nat)
    (htime : hasWordKw timeKws (lower text) = false)
    (hrem : tryParseReminder text = some (whenPart, textPart))
    (hwhen : parse_when whenPart now = some w) :
    chat_stages sid S reg text now freshId llmReply =
      { S := { history := update_history S.history text
                 ("✅ Reminder scheduled at ".data ++ fmtYMDHM w ++ " to: ".data ++ textPart),
               logs := { S.logs with reminders := S.logs.reminders ++
                 [{ rid := freshId, whenIso := natToIso w, text := textPart, sent := false }] },
               alerts := S.alerts },
        reg := reg ++ [(freshId, { session_id := sid, whenIso := natToIso w,
                                   text := textPart, sent := false })],
        response := "✅ Reminder scheduled at ".data ++ fmtYMDHM w ++ " to: ".data ++ textPart,
        modelCalled := false } := by
  simp only [chat_stages, htime, hrem, hwhen]
  rw [if_neg (by decide : ¬ (false = true))]


/-- C6 (amended): the global registry and the owning session's reminder
list hold separate copies of a reminder, not one shared record: scheduling
appends a `sent := false` copy to both, and delivery appends a second
`sent := true` copy to the session list while flipping only the registry's
flag — so after delivery the session list holds the reminder twice and its
first (stale) copy disagrees with the registry. -/
theorem claim_C6_reminder_views (sid : Nat) (S : SessionState)
    (reg : List (Nat × RemRecord)) (text whenPart textPart llmReply : List Char)
    (now now2 freshId w : Nat)
    (htri : triage_simple text = none)
    (htime : hasWordKw timeKws (lower text) = false)
    (hrem : tryParseReminder text = some (whenPart, textPart))
    (hwhen : parse_when whenPart now = some w)
    (hfresh : List.lookup freshId reg = none) :
    (schedule_reminder_job freshId (chat_core sid S reg text now freshId llmReply).S
        (chat_core sid S reg text now freshId llmReply).reg
        (natToIso w) textPart now2).1.logs.reminders =
      S.logs.reminders ++
        [{ rid := freshId, whenIso := natToIso w, text := textPart, sent := false },
         { rid := freshId, whenIso := natToIso w, text := textPart, sent := true }] ∧
    List.lookup freshId
      (schedule_reminder_job freshId (chat_core sid S reg text now freshId llmReply).S
        (chat_core sid S reg text now freshId llmReply).reg
        (natToIso w) textPart now2).2 =
      some { session_id := sid, whenIso := natToIso w, text := textPart, sent := true } := by
  have hout := (chat_core_no_verdict sid S reg text now freshId llmReply htri).trans
    (chat_stages_reminder sid (detect_and_log_basic S text now) reg text whenPart textPart
      llmReply now freshId w htime hrem hwhen)
  have hS : (chat_core sid S reg text now freshId llmReply).S.logs.reminders =
      S.logs.reminders ++
        [{ rid := freshId, whenIso := natToIso w, text := textPart, sent := false }] := by
    rw [hout]
    simp [detect_reminders]
  have hreg : (chat_core sid S reg text now freshId llmReply).reg =
      reg ++ [(freshId, { session_id := sid, whenIso := natToIso w,
                          text := textPart, sent := false })] := by
    rw [hout]
  have hlook : List.lookup freshId (chat_core sid S reg text now freshId llmReply).reg =
      some { session_id := sid, whenIso := natToIso w, text := textPart, sent := false } := by
    rw [hreg, lookup_append, hfresh]
    simp [List.lookup]
  unfold schedule_reminder_job
  rw [hlook]
  constructor
  · simp [logPatient, hS]
  · exact lookup_setSent freshId _ _ hlook


theorem claim_C6_reminder_views_witness :
    (schedule_reminder_job 7
        (chat_core 0 emptySession [] "Remind me at 5 pm to take meds".data 54000 7 "llm".data).S
        (chat_core 0 emptySession [] "Remind me at 5 pm to take meds".data 54000 7 "llm".data).reg
        (natToIso 61200) "take meds".data 61500).1.logs.reminders =
      emptySession.logs.reminders ++
        [{ rid := 7, whenIso := natToIso 61200, text := "take meds".data, sent := false },
         { rid := 7, whenIso := natToIso 61200, text := "take meds".data, sent := true }] ∧
    List.lookup 7
      (schedule_reminder_job 7
        (chat_core 0 emptySession [] "Remind me at 5 pm to take meds".data 54000 7 "llm".data).S
        (chat_core 0 emptySession [] "Remind me at 5 pm to take meds".data 54000 7 "llm".data).reg
        (natToIso 61200) "take meds".data 61500).2 =
      some { session_id := 0, whenIso := natToIso 61200, text := "take meds".data, sent := true } :=
  claim_C6_reminder_views 0 emptySession [] "Remind me at 5 pm to take meds".data
    "5 pm".data "take meds".data "llm".data 54000 61500 7 61200
    (by decide) (by decide) (by decide) (by decide) (by decide)

/-- C6 counterexample: after scheduling "Remind me at 5 pm to take meds"
and delivering the reminder, the owning session's reminder list holds two
records for reminder 7 — the stale `sent = false` one and a new
`sent = true` one — while the registry holds `sent = true`: the two views
are separate records that disagree, and the reminder does not appear
exactly once in the session list. -/
theorem claim_C6_counterexample :
    ((schedule_reminder_job 7
        (chat_core 0 emptySession [] "Remind me at 5 pm to take meds".data 54000 7 "llm".data).S
        (chat_core 0 emptySession [] "Remind me at 5 pm to take meds".data 54000 7 "llm".data).reg
        (natToIso 61200) "take meds".data 61500).1.logs.reminders.map
          (fun e => (e.rid, e.sent)) = [(7, false), (7, true)]) ∧
    ((List.lookup 7 (schedule_reminder_job 7
        (chat_core 0 emptySession [] "Remind me at 5 pm to take meds".data 54000 7 "llm".data).S
        (chat_core 0 emptySession [] "Remind me at 5 pm to take meds".data 54000 7 "llm".data).reg
        (natToIso 61200) "take meds".data 61500).2).map RemRecord.sent = some true) := by
  decide



theorem ensurePatientLogs_view (sid : Nat) (st : Stores) (s : Nat) :
    sessionView (ensurePatientLogs sid st) s = sessionView st s := by
  unfold ensurePatientLogs sessionView
  split_ifs <;> simp [SessionState.mk.injEq, lookup_getD_append]

theorem ensureHistories_view (sid : Nat) (st : Stores) (s : Nat) :
    sessionView (ensureHistories sid st) s = sessionView st s := by
  unfold ensureHistories sessionView
  split_ifs <;> simp [SessionState.mk.injEq, lookup_getD_append]

theorem ensureAlerts_view (sid : Nat) (st : Stores) (s : Nat) :
    sessionView (ensureAlerts sid st) s = sessionView st s := by
  unfold ensureAlerts sessionView
  split_ifs <;> simp [SessionState.mk.injEq, lookup_getD_append]

theorem ensureSession_reminders (sid : Nat) (st : Stores) :
    (ensureSession sid st).reminders_store = st.reminders_store := by
  unfold ensureSession ensureAlerts ensureHistories ensurePatientLogs
  split_ifs <;> rfl

theorem sessionView_ensure (sid : Nat) (st : Stores) (s : Nat) :
    sessionView (ensureSession sid st) s = sessionView st s := by
  unfold ensureSession
  rw [ensureAlerts_view, ensureHistories_view, ensurePatientLogs_view]

theorem get_session_id_view (cookie : Option Nat) (fresh : Nat) (st : Stores) (s : Nat)
    (h1 : List.lookup fresh st.conversation_histories = none)
    (h2 : List.lookup fresh st.patient_logs = none)
    (h3 : List.lookup fresh st.alerts_store = none) :
    sessionView (get_session_id cookie fresh st).2 s = sessionView st s := by
  cases cookie with
  | some sid =>
    show sessionView (ensureSession sid st) s = sessionView st s
    exact sessionView_ensure sid st s
  | none =>
    have e1 : dset st.conversation_histories fresh ([] : List (Role × List Char)) =
        st.conversation_histories ++ [(fresh, [])] := by simp [dset, h1]
    have e2 : dset st.patient_logs fresh emptyLogs =
        st.patient_logs ++ [(fresh, emptyLogs)] := by simp [dset, h2]
    have e3 : dset st.alerts_store fresh ([] : List Alert) =
        st.alerts_store ++ [(fresh, [])] := by simp [dset, h3]
    show sessionView (ensureSession fresh
      { st with conversation_histories := dset st.conversation_histories fresh [],
                patient_logs := dset st.patient_logs fresh emptyLogs,
                alerts_store := dset st.alerts_store fresh [] }) s = sessionView st s
    rw [e1, e2, e3, sessionView_ensure]
    unfold sessionView
    simp [SessionState.mk.injEq, lookup_getD_append]

theorem get_session_id_reminders (cookie : Option Nat) (fresh : Nat) (st : Stores) :
    (get_session_id cookie fresh st).2.reminders_store = st.reminders_store := by
  cases cookie with
  | some sid => exact ensureSession_reminders sid st
  | none =>
    show (ensureSession fresh _).reminders_store = _
    rw [ensureSession_reminders]

/-- C8 (amended): a request whose message text is empty or missing is
rejected with no log entries, history turns, alerts or reminders created —
but not before `get_session_id` has run, so an empty session record may
still be created for a previously unknown identity; every session's
observable view and the reminder registry are unchanged. -/
theorem claim_C8_empty_message (cookie : Option Nat) (fresh : Nat) (st : Stores)
    (now freshId : Nat) (llmReply : List Char)
    (h1 : List.lookup fresh st.conversation_histories = none)
    (h2 : List.lookup fresh st.patient_logs = none)
    (h3 : List.lookup fresh st.alerts_store = none) :
    (chat_route cookie fresh [] now freshId llmReply st).1 = "Please write a message.".data ∧
    (chat_route cookie fresh [] now freshId llmReply st).2 = (get_session_id cookie fresh st).2 ∧
    (∀ s, sessionView (chat_route cookie fresh [] now freshId llmReply st).2 s =
      sessionView st s) ∧
    (chat_route cookie fresh [] now freshId llmReply st).2.reminders_store =
      st.reminders_store := by
  have hr : chat_route cookie fresh [] now freshId llmReply st =
      ("Please write a message.".data, (get_session_id cookie fresh st).2) := by
    unfold chat_route
    simp
  refine ⟨by rw [hr], by rw [hr], fun s => ?_, ?_⟩
  · rw [hr]
    exact get_session_id_view cookie fresh st s h1 h2 h3
  · rw [hr]
    exact get_session_id_reminders cookie fresh st

theorem claim_C8_empty_message_witness :
    (chat_route none 5 [] 1 2 "llm".data emptyStores).1 = "Please write a message.".data ∧
    sessionView (chat_route none 5 [] 1 2 "llm".data emptyStores).2 5 =
      sessionView emptyStores 5 ∧
    (chat_route none 5 [] 1 2 "llm".data emptyStores).2.reminders_store =
      emptyStores.reminders_store := by
  have h := claim_C8_empty_message none 5 emptyStores 1 2 "llm".data
    (by decide) (by decide) (by decide)
  exact ⟨h.1, h.2.2.1 5, h.2.2.2⟩

/-- C8 counterexample: an empty-message request from a fresh identity is
rejected, yet it still creates the (empty) session records — the store is
not unchanged, falsifying "no session records are created by that
request". -/
theorem claim_C8_counterexample :
    (chat_route none 0 [] 0 0 [] emptyStores).1 = "Please write a message.".data ∧
    (chat_route none 0 [] 0 0 [] emptyStores).2 ≠ emptyStores ∧
    (chat_route none 0 [] 0 0 [] emptyStores).2.patient_logs = [(0, emptyLogs)] := by
  decide


end CareNest
